import Mathlib

/-!
Verification of the smart-garden control core: a shallow embedding of
`src/app/control.py` (class `ControlSystem`) and of `get_system_setting`
from `src/app/routes.py`, together with theorems settling the frozen
claims about the control decision engine.

Conventions of the embedding:
- Python floats are modelled as `ℚ` (all constants involved are exact).
- Python `None` is modelled as `Option.none`; fallible code returns `Except`.
- Python strings, where their order matters, are modelled as `List Char`
  with the lexicographic code-point comparison `pyStrLe` below.
- GPIO pin levels are `Bool` (`true` = HIGH = actuator on).
-/

namespace SmartGarden

/-- Python string comparison `a <= b` on code points: lexicographic order
on the character lists, a strict prefix being smaller. This is the
comparison used by `should_lights_be_on` for its HH:MM strings. -/
def pyStrLe : List Char → List Char → Bool
  | [], _ => true
  | _ :: _, [] => false
  | a :: as, b :: bs => if a < b then true else if b < a then false else pyStrLe as bs

/-- Embedding of `ControlSystem.should_lights_be_on` (src/app/control.py,
lines 169-191), with the two settings strings and the current wall-clock
HH:MM string passed as arguments (in the source they are fetched from
`get_system_setting` and `datetime.now().strftime` just above the
comparison). -/
def should_lights_be_on (light_on_time light_off_time current_time : List Char) : Bool :=
  if pyStrLe light_on_time light_off_time then
    pyStrLe light_on_time current_time && pyStrLe current_time light_off_time
  else
    pyStrLe light_on_time current_time || pyStrLe current_time light_off_time

/-- The aggregate row returned by `ControlSystem.get_average_readings`
(src/app/control.py, lines 114-121): one SQL `AVG` per sensor column.  SQL
`AVG` over an empty (or all-NULL) column is NULL, hence each field is an
`Option`.  The row itself always exists (`.first()` of an ungrouped
aggregate returns one row), which is why the Python guards
`if not avg_readings` never fire in the control loop. -/
structure Row where
  avg_temp : Option ℚ
  avg_humidity : Option ℚ
  avg_co2 : Option ℚ
  avg_moisture : Option ℚ
deriving DecidableEq

/-- One `SensorReading` row as written by the ingestion script
(src/app/utils/scd41.py): co2/temperature/humidity are non-nullable, the
soil-moisture value may be absent when the serial sensor read failed. -/
structure Sample where
  timestamp : ℚ
  co2 : ℚ
  temperature : ℚ
  humidity : ℚ
  moisture : Option ℚ
deriving DecidableEq

/-- Embedding of `ControlSystem.get_average_readings` (src/app/control.py,
lines 100-124): arithmetic mean of each column over the samples with
`timestamp >= time_threshold`, with SQL `AVG` semantics (NULL inputs are
skipped; the result is NULL when no non-NULL input exists). -/
def get_average_readings (samples : List Sample) (time_threshold : ℚ) : Row :=
  let recent := samples.filter (fun s => decide (s.timestamp ≥ time_threshold))
  let ms := recent.filterMap (fun s => s.moisture)
  { avg_temp :=
      if recent.isEmpty then none else some (((recent.map (fun s => s.temperature)).sum) / recent.length)
    avg_humidity :=
      if recent.isEmpty then none else some (((recent.map (fun s => s.humidity)).sum) / recent.length)
    avg_co2 :=
      if recent.isEmpty then none else some (((recent.map (fun s => s.co2)).sum) / recent.length)
    avg_moisture :=
      if ms.isEmpty then none else some (ms.sum / ms.length) }

/-- Embedding of `ControlSystem.should_pump_be_on` (src/app/control.py,
lines 126-167).  The two settings (`moisture.min`, `moisture.pump_duration`)
are passed in already converted to numbers, as the source converts them with
`float(...)` right after fetching them; `pump_is_running` is the physical
relay level read with `GPIO.input`; `pump_start_time` is the instance field
`self.pump_start_time`.  Returns the boolean decision together with the
updated `pump_start_time` field. -/
def should_pump_be_on (moisture_min pump_duration : ℚ) (avg_readings : Option Row)
    (pump_is_running : Bool) (current_time : ℚ) (pump_start_time : Option ℚ) :
    Bool × Option ℚ :=
  match avg_readings with
  | none => (false, pump_start_time)
  | some r =>
    match r.avg_moisture with
    | none => (false, pump_start_time)
    | some avg_moisture =>
      if pump_is_running then
        match pump_start_time with
        | none => (false, pump_start_time)
        | some t0 =>
          let elapsed_time := current_time - t0
          if elapsed_time ≥ pump_duration then (false, none)
          else (true, some t0)
      else
        if avg_moisture < moisture_min then (true, some current_time)
        else (false, pump_start_time)

/-- The three fan trigger conditions logged by `should_fan_be_on`. -/
inductive FanReason where
  | temperature
  | humidity
  | co2
deriving DecidableEq

/-- Embedding of `ControlSystem.should_fan_be_on` (src/app/control.py,
lines 193-232), thresholds passed in already `float`-converted.  In Python,
comparing `None` with a float raises `TypeError`; the `result` expression
and the three unconditional `trigger_reason` checks therefore raise as soon
as any of `avg_temp`, `avg_humidity`, `avg_co2` is NULL, which is modelled
as `Except.error ()`.  The `if not avg_readings` guard corresponds exactly
to `avg_readings = none`. -/
def should_fan_be_on (temp_max humid_max co2_max : ℚ) (avg_readings : Option Row) :
    Except Unit (Bool × List FanReason) :=
  match avg_readings with
  | none => Except.ok (false, [])
  | some r =>
    match r.avg_temp, r.avg_humidity, r.avg_co2 with
    | some avg_temp, some avg_humidity, some avg_co2 =>
      let result := decide (avg_temp > temp_max) || decide (avg_humidity > humid_max)
        || decide (avg_co2 > co2_max)
      let tr1 := if avg_temp > temp_max then [FanReason.temperature] else []
      let tr2 := if avg_humidity > humid_max then tr1 ++ [FanReason.humidity] else tr1
      let tr3 := if avg_co2 > co2_max then tr2 ++ [FanReason.co2] else tr2
      Except.ok (result, tr3)
    | _, _, _ => Except.error ()

/-- The three actuator channels driven by `ControlSystem.control_systems`. -/
inductive Chan where
  | light
  | fan
  | pump
deriving DecidableEq, BEq

/-- Levels of the three relay pins (`true` = HIGH = on). `GPIO.input` on an
output pin returns the level last written to it. -/
structure Gpio where
  light : Bool
  fan : Bool
  pump : Bool
deriving DecidableEq

/-- The external inputs of one `control_systems` cycle: the recent sensor
rows and the averaging cutoff (for `get_average_readings`), the settings
values fetched by the decision functions (already `float`-converted where
the source converts them), the wall-clock HH:MM string, and the
`time.time()` timestamp used by the pump timer. -/
structure Env where
  samples : List Sample
  time_threshold : ℚ
  light_on_time : List Char
  light_off_time : List Char
  current_time_str : List Char
  moisture_min : ℚ
  pump_duration : ℚ
  temp_max : ℚ
  humid_max : ℚ
  co2_max : ℚ
  time : ℚ

/-- Embedding of `ControlSystem.control_systems` (src/app/control.py,
lines 234-268).  For each channel the source reads the pin, computes the
decision, unconditionally calls `GPIO.output`, and logs a transition
message only when the re-read pin differs from the value read before.  The
result carries the new pin levels, the updated `pump_start_time`, the list
of `GPIO.output` calls issued (channel, level) in order, and the list of
channels for which a transition was logged.  A `TypeError` escaping
`should_fan_be_on` aborts the cycle (`Except.error`), as in the source. -/
def control_systems (env : Env) (g : Gpio) (pump_start_time : Option ℚ) :
    Except Unit (Gpio × Option ℚ × List (Chan × Bool) × List Chan) :=
  let avg_readings := get_average_readings env.samples env.time_threshold
  let light_status_before := g.light
  let light_should_be_on :=
    should_lights_be_on env.light_on_time env.light_off_time env.current_time_str
  let g1 : Gpio := { g with light := light_should_be_on }
  let log_light := if light_status_before ≠ g1.light then [Chan.light] else []
  let fan_status_before := g1.fan
  match should_fan_be_on env.temp_max env.humid_max env.co2_max (some avg_readings) with
  | Except.error e => Except.error e
  | Except.ok fan_res =>
    let fan_should_be_on := fan_res.1
    let g2 : Gpio := { g1 with fan := fan_should_be_on }
    let log_fan := if fan_status_before ≠ g2.fan then [Chan.fan] else []
    let pump_status_before := g2.pump
    let pump_res := should_pump_be_on env.moisture_min env.pump_duration
      (some avg_readings) g2.pump env.time pump_start_time
    let g3 : Gpio := { g2 with pump := pump_res.1 }
    let log_pump := if pump_status_before ≠ g3.pump then [Chan.pump] else []
    Except.ok (g3, pump_res.2,
      [(Chan.light, light_should_be_on), (Chan.fan, fan_should_be_on),
        (Chan.pump, pump_res.1)],
      log_light ++ log_fan ++ log_pump)

/-- The BCM pin numbers assigned in `ControlSystem.__init__`. -/
def LIGHT_RELAY_PIN : Nat := 17

def FAN_RELAY_PIN : Nat := 18

def PUMP_RELAY_PIN : Nat := 23

/-- One call into the `RPi.GPIO` library, as issued by the source. -/
inductive GpioCall where
  | setupOut (pin : Nat)
  | output (pin : Nat) (level : Bool)
  | cleanup
deriving DecidableEq

/-- The GPIO calls issued by `ControlSystem.setup_gpio` (src/app/control.py,
lines 84-98), run from `__init__` before the loop starts: configure the
three pins as outputs, then drive each LOW (off). -/
def setup_gpio_calls : List GpioCall :=
  [ GpioCall.setupOut LIGHT_RELAY_PIN, GpioCall.setupOut FAN_RELAY_PIN,
    GpioCall.setupOut PUMP_RELAY_PIN,
    GpioCall.output LIGHT_RELAY_PIN false, GpioCall.output FAN_RELAY_PIN false,
    GpioCall.output PUMP_RELAY_PIN false ]

/-- The GPIO calls issued by the `finally` block of `ControlSystem.run`
(src/app/control.py, lines 287-291) on any termination (keyboard
interrupt or unexpected exception): a single `GPIO.cleanup()`, which
releases the used channels back to inputs; no `GPIO.output` call is made. -/
def run_shutdown_calls : List GpioCall :=
  [ GpioCall.cleanup ]

/-- A dynamically-typed value as returned by `get_system_setting`: Python
`float`, `bool` or `str`. -/
inductive PyValue where
  | num (q : ℚ)
  | boolean (b : Bool)
  | str (s : String)
deriving DecidableEq

/-- Embedding of `get_system_setting` (src/app/routes.py, lines 351-380).
`settings` is the `SystemSetting` table as a partial map from
(setting_type, key) to the stored string — unique per pair by the table's
uniqueness constraint.  Python `float(value)` parsing is abstracted as the
`pyFloat` argument (success returns the parsed number, `ValueError` is
`none`); the dispatch logic under verification is independent of the
numeric grammar.  `value.lower()` is `String.toLower`. -/
def get_system_setting (pyFloat : String → Option ℚ)
    (settings : String → String → Option String)
    (setting_type key : String) (default : PyValue) : PyValue :=
  match settings setting_type key with
  | some value =>
    match pyFloat value with
    | some q => PyValue.num q
    | none =>
      if value.toLower == "true" || value.toLower == "false" then
        PyValue.boolean (value.toLower == "true")
      else
        PyValue.str value
  | none => default

/-- A concrete cycle environment: one in-window sample (temp 70, humidity
50, co2 400, moisture 50), default thresholds, light schedule 06:00-20:00,
wall clock 12:00. Every decision then equals the prior pin state. -/
def cycleEnv : Env :=
  { samples := [⟨0, 400, 70, 50, some 50⟩]
    time_threshold := 0
    light_on_time := [ '0', '6', ':', '0', '0' ]
    light_off_time := [ '2', '0', ':', '0', '0' ]
    current_time_str := [ '1', '2', ':', '0', '0' ]
    moisture_min := 30
    pump_duration := 60
    temp_max := 75
    humid_max := 80
    co2_max := 1500
    time := 1000 }

/-- Pin state matching every decision of `cycleEnv`: light on, fan off,
pump off. -/
def cycleGpio : Gpio := { light := true, fan := false, pump := false }

/-- The zero-padded HH:MM rendering of `t` minutes since midnight
(`t < 1440`), as produced by `datetime.now().strftime` and by the settings
forms; character list form, one ASCII digit per place. -/
def toHHMM (t : Nat) : List Char :=
  [Nat.digitChar (t / 60 / 10), Nat.digitChar (t / 60 % 10), ':',
    Nat.digitChar (t % 60 / 10), Nat.digitChar (t % 60 % 10)]

/-- Modelled from the spec (§4.2 LightScheduler): the schedule decision
over minutes-since-midnight — same-day interval inclusive at both ends
when `on <= off`, wrap-around past midnight otherwise.  Used only as the
abstract side of the refinement claim about the string implementation. -/
def lightScheduleSpec (now on_minutes off_minutes : Nat) : Bool :=
  if on_minutes ≤ off_minutes then
    decide (on_minutes ≤ now) && decide (now ≤ off_minutes)
  else
    decide (on_minutes ≤ now) || decide (now ≤ off_minutes)

theorem pyStrLe_refl (l : List Char) : pyStrLe l l = true := by
  induction l with
  | nil => rfl
  | cons a as ih =>
      simp only [pyStrLe]
      rw [if_neg (lt_irrefl a), if_neg (lt_irrefl a)]
      exact ih

/-- C6: in the same-day branch (`on <= off`) the light is on iff
`on <= now <= off` (both ends inclusive); in the wrap-around branch
(`on > off`) it is on iff `now >= on` or `now <= off`; and in both
branches the decision at `now = on_time` and at `now = off_time` is ON. -/
theorem lights_schedule_boundary (on_t off_t now : List Char) :
    (pyStrLe on_t off_t = true →
      (should_lights_be_on on_t off_t now = true ↔
        (pyStrLe on_t now = true ∧ pyStrLe now off_t = true)))
    ∧ (pyStrLe on_t off_t = false →
      (should_lights_be_on on_t off_t now = true ↔
        (pyStrLe on_t now = true ∨ pyStrLe now off_t = true)))
    ∧ should_lights_be_on on_t off_t on_t = true
    ∧ should_lights_be_on on_t off_t off_t = true := by
  refine ⟨fun h => ?_, fun h => ?_, ?_, ?_⟩
  · simp [should_lights_be_on, h]
  · simp [should_lights_be_on, h]
  · cases hb : pyStrLe on_t off_t <;> simp [should_lights_be_on, hb, pyStrLe_refl]
  · cases hb : pyStrLe on_t off_t <;> simp [should_lights_be_on, hb, pyStrLe_refl]

/-- Witness for `lights_schedule_boundary`: the same-day characterization
applied at 06:00/20:00 with now = 12:00. -/
theorem lights_schedule_boundary_witness :
    should_lights_be_on [ '0', '6', ':', '0', '0' ] [ '2', '0', ':', '0', '0' ]
      [ '1', '2', ':', '0', '0' ] = true :=
  ((lights_schedule_boundary [ '0', '6', ':', '0', '0' ] [ '2', '0', ':', '0', '0' ]
      [ '1', '2', ':', '0', '0' ]).1 (by decide)).mpr ⟨by decide, by decide⟩

/-- C2 (amended): whenever `avg_moisture` is unavailable (no aggregate row,
or a NULL moisture average), the pump evaluation returns decision OFF and
leaves `pump_start_time` unchanged — the early return happens before any
state is touched, so a previously recorded start time is NOT cleared. -/
theorem pump_no_data_off (mm pd : ℚ) (ot oh oc : Option ℚ) (phys : Bool)
    (now : ℚ) (ps : Option ℚ) :
    should_pump_be_on mm pd none phys now ps = (false, ps)
    ∧ should_pump_be_on mm pd (some ⟨ot, oh, oc, none⟩) phys now ps = (false, ps) :=
  ⟨rfl, rfl⟩

/-- C2 counterexample: with moisture unavailable and the internal state
RUNNING (physical pump on, `started_at = 40`), the evaluation returns OFF
but keeps `started_at = 40` — the claim that `started_at` is cleared, and
the defined-iff-running invariant, both fail here. -/
theorem pump_no_data_keeps_start_time :
    should_pump_be_on 30 60 (some ⟨none, none, none, none⟩) true 100 (some 40)
      = (false, some 40)
    ∧ (should_pump_be_on 30 60 (some ⟨none, none, none, none⟩) true 100 (some 40)).2 ≠ none := by
  exact ⟨rfl, by decide⟩

/-- C3: with an empty averaging window all four averaged fields are NULL
(distinct from zero); the pump decision is OFF for every configuration, but
the fan evaluation raises a `TypeError` (modelled as `Except.error`) for
every threshold configuration instead of returning OFF, because the truthy
aggregate row defeats the `if not avg_readings` guard and `None` is then
compared against a float. -/
theorem no_samples_fan_raises_pump_off :
    get_average_readings [] 0 = ⟨none, none, none, none⟩
    ∧ (∀ tm hm cm : ℚ,
        should_fan_be_on tm hm cm (some (get_average_readings [] 0)) = Except.error ())
    ∧ (∀ (mm pd : ℚ) (phys : Bool) (t : ℚ) (ps : Option ℚ),
        should_pump_be_on mm pd (some (get_average_readings [] 0)) phys t ps = (false, ps)) :=
  ⟨rfl, fun _ _ _ => rfl, fun _ _ _ _ _ => rfl⟩

/-- C4: with moisture data available, the physical pump reporting ON and no
recorded start time (desync), the evaluation returns OFF with the state
still cleared, and re-running it on the resulting state yields OFF again —
never ON. -/
theorem pump_desync_off (mm pd : ℚ) (ot oh oc : Option ℚ) (m now : ℚ) :
    should_pump_be_on mm pd (some ⟨ot, oh, oc, some m⟩) true now none = (false, none)
    ∧ should_pump_be_on mm pd (some ⟨ot, oh, oc, some m⟩) true now
        (should_pump_be_on mm pd (some ⟨ot, oh, oc, some m⟩) true now none).2
      = (false, none) :=
  ⟨rfl, rfl⟩

/-- C5: with moisture 25 < moisture_min 30, pump_duration 120 s and cycles
60 s apart whose decisions are applied to the actuator, the pump evaluation
returns ON at cycle 1 (recording the cycle-1 time), ON at cycle 2 (elapsed
60 s < 120 s, state unchanged) and OFF at cycle 3 (elapsed 120 s >= 120 s,
start time cleared) for every cycle-3 moisture value. -/
theorem pump_duration_scenario (t1 m3 : ℚ) (ot oh oc : Option ℚ) :
    should_pump_be_on 30 120 (some ⟨ot, oh, oc, some 25⟩) false t1 none = (true, some t1)
    ∧ should_pump_be_on 30 120 (some ⟨ot, oh, oc, some 25⟩) true (t1 + 60) (some t1)
        = (true, some t1)
    ∧ should_pump_be_on 30 120 (some ⟨ot, oh, oc, some m3⟩) true (t1 + 120) (some t1)
        = (false, none) := by
  refine ⟨?_, ?_, ?_⟩
  · simp only [should_pump_be_on, Bool.false_eq_true, if_false]
    rw [if_pos (by norm_num)]
  · simp only [should_pump_be_on, if_true]
    rw [if_neg (by linarith [show t1 + 60 - t1 = (60 : ℚ) from by ring])]
  · simp only [should_pump_be_on, if_true]
    rw [if_pos (by linarith [show t1 + 120 - t1 = (120 : ℚ) from by ring])]

/-- C8: with all three averages available the fan decision is true iff
temperature, humidity or CO2 exceeds its maximum, each true sub-condition
contributing its own trigger reason; at 76/75, 50/80, 400/1500 the decision
is ON with reason list exactly [temperature]. -/
theorem fan_threshold_characterization :
    (∀ (tm hm cm t h c : ℚ) (mo : Option ℚ),
      should_fan_be_on tm hm cm (some ⟨some t, some h, some c, mo⟩)
        = Except.ok (decide (t > tm) || decide (h > hm) || decide (c > cm),
            (if t > tm then [FanReason.temperature] else [])
              ++ (if h > hm then [FanReason.humidity] else [])
              ++ (if c > cm then [FanReason.co2] else [])))
    ∧ should_fan_be_on 75 80 1500 (some ⟨some 76, some 50, some 400, none⟩)
        = Except.ok (true, [FanReason.temperature]) := by
  constructor
  · intro tm hm cm t h c mo
    simp only [should_fan_be_on]
    split_ifs <;> simp
  · rfl

/-- C1 (amended): a completed cycle issues exactly one `GPIO.output` write
per channel, unconditionally; the before/after comparison gates only the
transition log, which records a channel exactly when its level changed. -/
theorem cycle_write_per_channel (env : Env) (g : Gpio) (ps : Option ℚ)
    (g2 : Gpio) (ps2 : Option ℚ) (ws : List (Chan × Bool)) (ls : List Chan)
    (h : control_systems env g ps = Except.ok (g2, ps2, ws, ls)) :
    (∀ c : Chan, (ws.filter (fun w => w.1 == c)).length = 1)
    ∧ (Chan.light ∈ ls ↔ g.light ≠ g2.light)
    ∧ (Chan.fan ∈ ls ↔ g.fan ≠ g2.fan)
    ∧ (Chan.pump ∈ ls ↔ g.pump ≠ g2.pump) := by
  simp only [control_systems] at h
  cases hfan : should_fan_be_on env.temp_max env.humid_max env.co2_max
      (some (get_average_readings env.samples env.time_threshold)) with
  | error e => rw [hfan] at h; exact absurd h (by simp)
  | ok fan_res =>
    rw [hfan] at h
    simp only [Except.ok.injEq, Prod.mk.injEq] at h
    obtain ⟨hg, hps, hws, hls⟩ := h
    subst hg hps hws hls
    clear hfan
    refine ⟨fun c => by cases c <;> rfl, ?_⟩
    generalize should_lights_be_on env.light_on_time env.light_off_time env.current_time_str
      = ld
    generalize (should_pump_be_on env.moisture_min env.pump_duration
      (some (get_average_readings env.samples env.time_threshold)) g.pump env.time ps).1 = pd
    refine ⟨?_, ?_, ?_⟩ <;> · split_ifs <;> simp_all

/-- Evaluation of one cycle in the concrete environment: every decision
(light on, fan off, pump off) equals the corresponding prior pin level, no
transition is logged, the state is unchanged — and still one write per
channel is issued. -/
theorem cycle_eval :
    control_systems cycleEnv cycleGpio none
      = Except.ok (cycleGpio, none,
          [(Chan.light, true), (Chan.fan, false), (Chan.pump, false)], []) := by
  have havg : get_average_readings cycleEnv.samples cycleEnv.time_threshold
      = ⟨some 70, some 50, some 400, some 50⟩ := by
    norm_num [get_average_readings, cycleEnv, List.filterMap_cons, List.filterMap_nil]
  simp only [control_systems]
  rw [havg]
  rfl

/-- Witness for `cycle_write_per_channel` at the concrete cycle above. -/
theorem cycle_write_per_channel_witness :
    (∀ c : Chan,
      (([(Chan.light, true), (Chan.fan, false), (Chan.pump, false)] :
          List (Chan × Bool)).filter (fun w => w.1 == c)).length = 1)
    ∧ (Chan.light ∈ ([] : List Chan) ↔ cycleGpio.light ≠ cycleGpio.light)
    ∧ (Chan.fan ∈ ([] : List Chan) ↔ cycleGpio.fan ≠ cycleGpio.fan)
    ∧ (Chan.pump ∈ ([] : List Chan) ↔ cycleGpio.pump ≠ cycleGpio.pump) :=
  cycle_write_per_channel cycleEnv cycleGpio none cycleGpio none
    [(Chan.light, true), (Chan.fan, false), (Chan.pump, false)] [] cycle_eval

/-- C1 counterexample: in the concrete cycle every decision equals the
channel's prior state (the result state equals the input state and no
transition is logged), yet three writes are still issued — one per
channel — refuting the write-on-change claim. -/
theorem cycle_writes_despite_no_change :
    control_systems cycleEnv cycleGpio none
      = Except.ok (cycleGpio, none,
          [(Chan.light, true), (Chan.fan, false), (Chan.pump, false)], [])
    ∧ cycleGpio.light = true := ⟨cycle_eval, rfl⟩

/-- C7 (amended): `setup_gpio` drives all three relays LOW (off) at
startup, before the loop; the termination path of `run` issues only
`GPIO.cleanup()`, releasing the pins, and does not write OFF to them. -/
theorem startup_off_shutdown_cleanup :
    (GpioCall.output LIGHT_RELAY_PIN false ∈ setup_gpio_calls
      ∧ GpioCall.output FAN_RELAY_PIN false ∈ setup_gpio_calls
      ∧ GpioCall.output PUMP_RELAY_PIN false ∈ setup_gpio_calls)
    ∧ run_shutdown_calls = [GpioCall.cleanup] := by
  exact ⟨by decide, rfl⟩

/-- C7 counterexample: the shutdown sequence contains no `GPIO.output`
OFF write for any of the three relay pins. -/
theorem shutdown_issues_no_off_writes :
    GpioCall.output LIGHT_RELAY_PIN false ∉ run_shutdown_calls
    ∧ GpioCall.output FAN_RELAY_PIN false ∉ run_shutdown_calls
    ∧ GpioCall.output PUMP_RELAY_PIN false ∉ run_shutdown_calls := by decide

/-- C9: `get_system_setting` returns the parsed number when the stored
string parses as one; otherwise a boolean when the lower-cased string is
exactly "true" or "false"; otherwise the raw string; and it returns the
supplied default exactly when no setting exists — when one exists the
result does not depend on the default. -/
theorem settings_decode (pyFloat : String → Option ℚ)
    (settings : String → String → Option String) (st k : String) (d : PyValue) :
    (settings st k = none → get_system_setting pyFloat settings st k d = d)
    ∧ (∀ v q, settings st k = some v → pyFloat v = some q →
        get_system_setting pyFloat settings st k d = PyValue.num q)
    ∧ (∀ v, settings st k = some v → pyFloat v = none → v.toLower = "true" →
        get_system_setting pyFloat settings st k d = PyValue.boolean true)
    ∧ (∀ v, settings st k = some v → pyFloat v = none → v.toLower = "false" →
        get_system_setting pyFloat settings st k d = PyValue.boolean false)
    ∧ (∀ v, settings st k = some v → pyFloat v = none →
        v.toLower ≠ "true" → v.toLower ≠ "false" →
        get_system_setting pyFloat settings st k d = PyValue.str v)
    ∧ (∀ v d2, settings st k = some v →
        get_system_setting pyFloat settings st k d
          = get_system_setting pyFloat settings st k d2) := by
  refine ⟨fun h => ?_, fun v q hs hp => ?_, fun v hs hp hl => ?_,
    fun v hs hp hl => ?_, fun v hs hp h1 h2 => ?_, fun v d2 hs => ?_⟩
  · simp [get_system_setting, h]
  · simp [get_system_setting, hs, hp]
  · simp [get_system_setting, hs, hp, hl]
  · simp [get_system_setting, hs, hp, hl]
  · have e1 : (v.toLower == "true") = false := beq_eq_false_iff_ne.mpr h1
    have e2 : (v.toLower == "false") = false := beq_eq_false_iff_ne.mpr h2
    simp [get_system_setting, hs, hp, e1, e2]
  · simp [get_system_setting, hs]

/-- Witness for `settings_decode`: a stored "30" that parses numerically
decodes to the number 30, ignoring the supplied default. -/
theorem settings_decode_witness :
    get_system_setting (fun _ => some 30) (fun _ _ => some "30") "moisture" "min"
      (PyValue.num 0) = PyValue.num 30 :=
  (settings_decode (fun _ => some 30) (fun _ _ => some "30") "moisture" "min"
      (PyValue.num 0)).2.1 "30" 30 rfl rfl

theorem digitChar_lt_iff {j k : Nat} (hj : j < 10) (hk : k < 10) :
    Nat.digitChar j < Nat.digitChar k ↔ j < k := by
  interval_cases j <;> interval_cases k <;> decide

theorem digitChar_not_lt_self {j : Nat} (hj : j < 10) :
    ¬ Nat.digitChar j < Nat.digitChar j :=
  fun h => Nat.lt_irrefl j ((digitChar_lt_iff hj hj).mp h)

/-- Lexicographic comparison of two zero-padded two-digit blocks agrees
with numeric comparison, deferring to the tails on equality. -/
theorem pyStrLe_two_digits (x y : Nat) (hx : x < 100) (hy : y < 100)
    (tl1 tl2 : List Char) :
    pyStrLe (Nat.digitChar (x / 10) :: Nat.digitChar (x % 10) :: tl1)
        (Nat.digitChar (y / 10) :: Nat.digitChar (y % 10) :: tl2)
      = if x < y then true else if y < x then false else pyStrLe tl1 tl2 := by
  have hx1 : x / 10 < 10 := by omega
  have hx2 : x % 10 < 10 := by omega
  have hy1 : y / 10 < 10 := by omega
  have hy2 : y % 10 < 10 := by omega
  simp only [pyStrLe]
  rcases Nat.lt_trichotomy (x / 10) (y / 10) with h | h | h
  · rw [if_pos ((digitChar_lt_iff hx1 hy1).mpr h), if_pos (by omega)]
  · rw [h, if_neg (digitChar_not_lt_self hy1), if_neg (digitChar_not_lt_self hy1)]
    rcases Nat.lt_trichotomy (x % 10) (y % 10) with h2 | h2 | h2
    · rw [if_pos ((digitChar_lt_iff hx2 hy2).mpr h2), if_pos (by omega)]
    · rw [h2, if_neg (digitChar_not_lt_self hy2), if_neg (digitChar_not_lt_self hy2),
        if_neg (by omega : ¬ x < y), if_neg (by omega : ¬ y < x)]
    · rw [if_neg (fun hc => absurd ((digitChar_lt_iff hx2 hy2).mp hc) (by omega)),
        if_pos ((digitChar_lt_iff hy2 hx2).mpr h2),
        if_neg (by omega : ¬ x < y), if_pos (by omega : y < x)]
  · rw [if_neg (fun hc => absurd ((digitChar_lt_iff hx1 hy1).mp hc) (by omega)),
      if_pos ((digitChar_lt_iff hy1 hx1).mpr h),
      if_neg (by omega : ¬ x < y), if_pos (by omega : y < x)]

theorem pyStrLe_colon_cons (tl1 tl2 : List Char) :
    pyStrLe (':' :: tl1) (':' :: tl2) = pyStrLe tl1 tl2 := by
  simp only [pyStrLe]
  rw [if_neg (by decide), if_neg (by decide)]

/-- Lexicographic comparison of two zero-padded HH:MM strings agrees with
numeric comparison of minutes-since-midnight. -/
theorem pyStrLe_toHHMM {t1 t2 : Nat} (h1 : t1 < 1440) (h2 : t2 < 1440) :
    pyStrLe (toHHMM t1) (toHHMM t2) = decide (t1 ≤ t2) := by
  have e1 : t1 / 60 < 100 := by omega
  have e2 : t2 / 60 < 100 := by omega
  have e3 : t1 % 60 < 100 := by omega
  have e4 : t2 % 60 < 100 := by omega
  have h0 : pyStrLe [] [] = true := rfl
  simp only [toHHMM]
  rw [pyStrLe_two_digits (t1 / 60) (t2 / 60) e1 e2, pyStrLe_colon_cons,
    pyStrLe_two_digits (t1 % 60) (t2 % 60) e3 e4, h0]
  split_ifs with a b c d
  · exact (decide_eq_true (by omega)).symm
  · exact (decide_eq_false (by omega)).symm
  · exact (decide_eq_true (by omega)).symm
  · exact (decide_eq_false (by omega)).symm
  · exact (decide_eq_true (by omega)).symm

/-- C10: on zero-padded HH:MM renderings of any times below 24:00, the
string-comparison implementation of the light schedule decides exactly the
minutes-since-midnight schedule of the spec. -/
theorem lights_string_refines_minutes (now on_m off_m : Nat)
    (hn : now < 1440) (ho : on_m < 1440) (hf : off_m < 1440) :
    should_lights_be_on (toHHMM on_m) (toHHMM off_m) (toHHMM now)
      = lightScheduleSpec now on_m off_m := by
  unfold should_lights_be_on lightScheduleSpec
  rw [pyStrLe_toHHMM ho hf, pyStrLe_toHHMM ho hn, pyStrLe_toHHMM hn hf]
  by_cases h : on_m ≤ off_m
  · simp [h]
  · simp [h]

/-- Witness for `lights_string_refines_minutes`: 12:00 against the
06:00-20:00 schedule, where both sides decide ON. -/
theorem lights_string_refines_minutes_witness :
    should_lights_be_on (toHHMM 360) (toHHMM 1200) (toHHMM 720)
      = lightScheduleSpec 720 360 1200
    ∧ lightScheduleSpec 720 360 1200 = true :=
  ⟨lights_string_refines_minutes 720 360 1200 (by omega) (by omega) (by omega),
    by decide⟩

end SmartGarden
